import Mathlib

/-
Verification development for the watertap-reflo repository.

The definitions below are shallow embeddings of the repository's own code:
pure arithmetic expressions become functions over ℚ, straight-line script
control flow becomes event lists, and data transcribed from the sources
(import lists, assertion inventories, file names) becomes concrete Lean data.
Each section names the source file and lines it embeds.
-/

/- ================================================================
   Section 1: multi-period PV/battery/RO model
   (seto/analysis/multiperiod/PV_RO_battery_mutiperiod_class.py)
   ================================================================ -/

/-- Design-level state of the multiperiod PV/battery/RO model: the linked
design variables shared across all time blocks, plus the per-period
grid cost values of the solved blocks. -/
structure MPDesign where
  nameplate_power : ℚ
  nameplate_energy : ℚ
  pv_size : ℚ
  grid_cost : ℕ → ℚ

/-- Embeds the battery_cost Expression of create_multiperiod_pv_battery_model:
0.096 * (cost_battery_power * nameplate_power + cost_battery_energy * nameplate_energy). -/
def battery_cost (cost_battery_power cost_battery_energy : ℚ) (d : MPDesign) : ℚ :=
  96 / 1000 * (cost_battery_power * d.nameplate_power
    + cost_battery_energy * d.nameplate_energy)

/-- Embeds the pv_cost Expression: 1040 * pv.size * 0.096 + 9 * pv.size. -/
def pv_cost (d : MPDesign) : ℚ :=
  1040 * d.pv_size * (96 / 1000) + 9 * d.pv_size

/-- Embeds the total_cost Expression:
(battery_cost + pv_cost) / 365 / 24 * n_time_points + sum of grid_cost over blocks. -/
def total_cost (cost_battery_power cost_battery_energy : ℚ) (n_time_points : ℕ)
    (d : MPDesign) : ℚ :=
  (battery_cost cost_battery_power cost_battery_energy d + pv_cost d) / 365 / 24
      * (n_time_points : ℚ)
    + (((List.range n_time_points).map d.grid_cost).sum)

/-- Embeds the LCOW Expression of create_multiperiod_pv_battery_model:
total_cost / ro_capacity / 24 * n_time_points + 0.45. -/
def LCOW (cost_battery_power cost_battery_energy ro_capacity : ℚ) (n_time_points : ℕ)
    (d : MPDesign) : ℚ :=
  total_cost cost_battery_power cost_battery_energy n_time_points d
      / ro_capacity / 24 * (n_time_points : ℚ)
    + 45 / 100

/-- Volume of water produced over the modeled horizon, per the claim's wording:
ro_capacity m3/day over n_time_points hours. -/
def horizonWaterVolume (ro_capacity : ℚ) (n_time_points : ℕ) : ℚ :=
  ro_capacity * (n_time_points : ℚ) / 24

/-- Levelized cost of water written from the claim's words (for comparison with
the LCOW expression embedded from the source): total cost divided by the volume
of water produced over the horizon, plus the fixed RO contribution of 0.45. -/
def LCOW_levelized (cost_battery_power cost_battery_energy ro_capacity : ℚ)
    (n_time_points : ℕ) (d : MPDesign) : ℚ :=
  total_cost cost_battery_power cost_battery_energy n_time_points d
      / horizonWaterVolume ro_capacity n_time_points
    + 45 / 100

/-- Claim C1 is false as stated: at n_time_points = 12 (with the default
battery costs, ro_capacity = 6000, and a design point with zero battery and PV
sizes and unit grid cost per block) the code's LCOW expression differs from
total cost divided by the water volume of the horizon plus 0.45. -/
theorem C1_lcow_counterexample :
    LCOW 75 50 6000 12 (MPDesign.mk 0 0 0 (fun _ => 1)) ≠
      LCOW_levelized 75 50 6000 12 (MPDesign.mk 0 0 0 (fun _ => 1)) := by
  norm_num [LCOW, LCOW_levelized, total_cost, battery_cost, pv_cost,
    horizonWaterVolume, List.range_succ]

/-- Claim C1, amended: for every n_time_points, capacity, battery costs and
design point the LCOW expression is
total_cost / ro_capacity / 24 * n_time_points + 0.45, and whenever
n_time_points = 24 (the only horizon the repository uses) it coincides with
the levelized cost of water: total cost divided by the volume of water
produced over the horizon, plus the fixed RO contribution of 0.45. For other
horizons the two formulas can differ, as the counterexample at
n_time_points = 12 shows. -/
theorem C1_lcow_amended (cbp cbe rc : ℚ) (n : ℕ) (d : MPDesign) :
    LCOW cbp cbe rc n d
        = total_cost cbp cbe n d / rc / 24 * (n : ℚ) + 45 / 100
      ∧ (n = 24 → LCOW cbp cbe rc n d = LCOW_levelized cbp cbe rc n d) := by
  refine ⟨rfl, ?_⟩
  intro h
  subst h
  unfold LCOW LCOW_levelized horizonWaterVolume
  push_cast
  ring

/-- Witness for C1_lcow_amended at a concrete input, discharging the
n_time_points = 24 hypothesis of the coincidence conjunct. -/
theorem C1_lcow_amended_witness :
    LCOW 75 50 6000 24 (MPDesign.mk 1 2 3 (fun _ => 1))
        = total_cost 75 50 24 (MPDesign.mk 1 2 3 (fun _ => 1)) / 6000 / 24 * (24 : ℚ)
          + 45 / 100
      ∧ LCOW 75 50 6000 24 (MPDesign.mk 1 2 3 (fun _ => 1))
        = LCOW_levelized 75 50 6000 24 (MPDesign.mk 1 2 3 (fun _ => 1)) :=
  ⟨(C1_lcow_amended 75 50 6000 24 (MPDesign.mk 1 2 3 (fun _ => 1))).1,
   (C1_lcow_amended 75 50 6000 24 (MPDesign.mk 1 2 3 (fun _ => 1))).2 rfl⟩

/- ================================================================
   Section 2: linking variable pairs of the multiperiod model
   (get_pv_ro_variable_pairs and create_multiperiod_pv_battery_model,
   PV_RO_battery_mutiperiod_class.py)
   ================================================================ -/

/-- Variables of the battery block of one time-block flowsheet that appear in
the linking pairs. state_of_charge0 and energy_throughput0 stand for the
time-indexed variables evaluated at index 0. -/
inductive BatteryVar where
  | state_of_charge0
  | initial_state_of_charge
  | energy_throughput0
  | initial_energy_throughput
  | nameplate_power
  | nameplate_energy
deriving DecidableEq, Repr

/-- Variables of one time-block flowsheet referenced by the linking pairs. -/
inductive FsVar where
  | battery (v : BatteryVar)
  | pv_size
deriving DecidableEq, Repr

/-- A variable of one block of the multiperiod model: the block index together
with the flowsheet variable. -/
structure BlockVar where
  block : ℕ
  var : FsVar
deriving DecidableEq, Repr

/-- Embeds get_pv_ro_variable_pairs: the list of variable pairs connected
across two time periods t1 (current block) and t2 (next block). -/
def get_pv_ro_variable_pairs (t1 t2 : ℕ) : List (BlockVar × BlockVar) :=
  [ (BlockVar.mk t1 (FsVar.battery BatteryVar.state_of_charge0),
     BlockVar.mk t2 (FsVar.battery BatteryVar.initial_state_of_charge)),
    (BlockVar.mk t1 (FsVar.battery BatteryVar.energy_throughput0),
     BlockVar.mk t2 (FsVar.battery BatteryVar.initial_energy_throughput)),
    (BlockVar.mk t1 (FsVar.battery BatteryVar.nameplate_power),
     BlockVar.mk t2 (FsVar.battery BatteryVar.nameplate_power)),
    (BlockVar.mk t1 (FsVar.battery BatteryVar.nameplate_energy),
     BlockVar.mk t2 (FsVar.battery BatteryVar.nameplate_energy)),
    (BlockVar.mk t1 FsVar.pv_size, BlockVar.mk t2 FsVar.pv_size) ]

/-- Links installed by MultiPeriodModel.build_multi_period_model: the linking
variable function is applied to every pair of consecutive blocks
(t, t + 1) for t < n_time_points - 1. -/
def multiperiodLinks (n_time_points : ℕ) : List (List (BlockVar × BlockVar)) :=
  (List.range (n_time_points - 1)).map (fun t => get_pv_ro_variable_pairs t (t + 1))

/-- Embeds the two fix statements of create_multiperiod_pv_battery_model:
blocks[0].process.fs.battery.initial_state_of_charge.fix(0) and
blocks[0].process.fs.battery.initial_energy_throughput.fix(0). -/
def multiperiodFixedVars : List (BlockVar × ℚ) :=
  [ (BlockVar.mk 0 (FsVar.battery BatteryVar.initial_state_of_charge), 0),
    (BlockVar.mk 0 (FsVar.battery BatteryVar.initial_energy_throughput), 0) ]

/-- Claim C5: for every pair of consecutive time blocks exactly five variable
pairs are linked, and they are exactly battery state_of_charge[0] to next
initial_state_of_charge, energy_throughput[0] to next
initial_energy_throughput, and the three design variables nameplate_power,
nameplate_energy, and pv size equated across the two blocks; block 0's
initial_state_of_charge and initial_energy_throughput are fixed to 0. -/
theorem C5_linking_pairs (n t1 t2 : ℕ) (h : t1 ∈ List.range (n - 1))
    (h2 : t2 = t1 + 1) :
    get_pv_ro_variable_pairs t1 t2 ∈ multiperiodLinks n
      ∧ (get_pv_ro_variable_pairs t1 t2).length = 5
      ∧ get_pv_ro_variable_pairs t1 t2 =
        [ (BlockVar.mk t1 (FsVar.battery BatteryVar.state_of_charge0),
           BlockVar.mk t2 (FsVar.battery BatteryVar.initial_state_of_charge)),
          (BlockVar.mk t1 (FsVar.battery BatteryVar.energy_throughput0),
           BlockVar.mk t2 (FsVar.battery BatteryVar.initial_energy_throughput)),
          (BlockVar.mk t1 (FsVar.battery BatteryVar.nameplate_power),
           BlockVar.mk t2 (FsVar.battery BatteryVar.nameplate_power)),
          (BlockVar.mk t1 (FsVar.battery BatteryVar.nameplate_energy),
           BlockVar.mk t2 (FsVar.battery BatteryVar.nameplate_energy)),
          (BlockVar.mk t1 FsVar.pv_size, BlockVar.mk t2 FsVar.pv_size) ]
      ∧ multiperiodFixedVars =
        [ (BlockVar.mk 0 (FsVar.battery BatteryVar.initial_state_of_charge), 0),
          (BlockVar.mk 0 (FsVar.battery BatteryVar.initial_energy_throughput), 0) ] := by
  subst h2
  refine ⟨?_, rfl, rfl, rfl⟩
  unfold multiperiodLinks
  exact List.mem_map_of_mem (fun t => get_pv_ro_variable_pairs t (t + 1)) h

/-- Witness for C5_linking_pairs with n = 24 and the block pair (0, 1). -/
theorem C5_linking_pairs_witness :
    get_pv_ro_variable_pairs 0 1 ∈ multiperiodLinks 24
      ∧ (get_pv_ro_variable_pairs 0 1).length = 5
      ∧ get_pv_ro_variable_pairs 0 1 =
        [ (BlockVar.mk 0 (FsVar.battery BatteryVar.state_of_charge0),
           BlockVar.mk 1 (FsVar.battery BatteryVar.initial_state_of_charge)),
          (BlockVar.mk 0 (FsVar.battery BatteryVar.energy_throughput0),
           BlockVar.mk 1 (FsVar.battery BatteryVar.initial_energy_throughput)),
          (BlockVar.mk 0 (FsVar.battery BatteryVar.nameplate_power),
           BlockVar.mk 1 (FsVar.battery BatteryVar.nameplate_power)),
          (BlockVar.mk 0 (FsVar.battery BatteryVar.nameplate_energy),
           BlockVar.mk 1 (FsVar.battery BatteryVar.nameplate_energy)),
          (BlockVar.mk 0 FsVar.pv_size, BlockVar.mk 1 FsVar.pv_size) ]
      ∧ multiperiodFixedVars =
        [ (BlockVar.mk 0 (FsVar.battery BatteryVar.initial_state_of_charge), 0),
          (BlockVar.mk 0 (FsVar.battery BatteryVar.initial_energy_throughput), 0) ] :=
  C5_linking_pairs 24 0 1 (by decide) rfl

/- ================================================================
   Section 3: add_vagmd
   (seto/analysis/multiperiod/ltmed_vagmd_semibatch/MED_VAGMD_flowsheet.py,
   lines 343-395)
   ================================================================ -/

/-- Inputs dictionary of add_vagmd (the entries the function reads). -/
structure VagmdInputs where
  feed_flow_rate : ℚ
  evap_inlet_temp : ℚ
  cond_inlet_temp : ℚ
  feed_temp : ℚ
  feed_salinity : ℚ
  recovery_ratio : ℚ
  module_type : String
  cooling_system_type : String
  cooling_inlet_temp : ℚ

/-- Result of add_vagmd: the configuration the VAGMD unit is constructed with,
the effective operating parameters after the high-brine-salinity override, and
the temperature fixes applied (condenser inlet when the cooling circuit is
closed, cooling inlet otherwise). -/
structure VagmdUnit where
  module_type : String
  high_brine_salinity : Bool
  cooling_system_type : String
  feed_flow_rate : ℚ
  evap_inlet_temp : ℚ
  cond_inlet_temp : ℚ
  evap_in_temp_fixed : ℚ
  cond_in_temp_fixed : Option ℚ
  cooling_in_temp_fixed : Option ℚ
deriving DecidableEq

/-- Final brine salinity computed in add_vagmd: feed_salinity / (1 - recovery_ratio). -/
def final_brine_salinity (i : VagmdInputs) : ℚ :=
  i.feed_salinity / (1 - i.recovery_ratio)

/-- Embeds add_vagmd. When the module type is AS7C1.5L and the final brine
salinity exceeds 175.3 g/L, the operating parameters are overridden (closed
cooling circuit, 1100 L/h feed, 80 degC evaporator inlet, 25 degC condenser
inlet) and high_brine_salinity is set; otherwise the caller's inputs are used.
The unit is then built and the evaporator inlet temperature is fixed, followed
by the condenser inlet (closed circuit) or cooling inlet (open circuit). -/
def add_vagmd (i : VagmdInputs) : VagmdUnit :=
  let overridden := i.module_type = "AS7C1.5L" ∧ final_brine_salinity i > 1753 / 10
  let cooling := if overridden then "closed" else i.cooling_system_type
  let ffr := if overridden then 1100 else i.feed_flow_rate
  let evap := if overridden then 80 else i.evap_inlet_temp
  let cond := if overridden then 25 else i.cond_inlet_temp
  let hbs := if overridden then true else false
  { module_type := i.module_type
    high_brine_salinity := hbs
    cooling_system_type := cooling
    feed_flow_rate := ffr
    evap_inlet_temp := evap
    cond_inlet_temp := cond
    evap_in_temp_fixed := evap + 27315 / 100
    cond_in_temp_fixed :=
      if cooling = "closed" then some (cond + 27315 / 100) else none
    cooling_in_temp_fixed :=
      if cooling = "closed" then none else some (i.cooling_inlet_temp + 27315 / 100) }

/-- Claim C4: if the module type is AS7C1.5L and feed_salinity / (1 -
recovery_ratio) exceeds 175.3 g/L, the VAGMD unit is built with closed cooling,
1100 L/h feed flow, 80 degC evaporator inlet, 25 degC condenser inlet and
high_brine_salinity true, overriding the caller's inputs; in every other case
high_brine_salinity is false and the caller's inputs are used unchanged. -/
theorem C4_add_vagmd_override (i : VagmdInputs) :
    (i.module_type = "AS7C1.5L" ∧ final_brine_salinity i > 1753 / 10 →
      (add_vagmd i).cooling_system_type = "closed"
        ∧ (add_vagmd i).feed_flow_rate = 1100
        ∧ (add_vagmd i).evap_inlet_temp = 80
        ∧ (add_vagmd i).cond_inlet_temp = 25
        ∧ (add_vagmd i).high_brine_salinity = true)
    ∧ (¬(i.module_type = "AS7C1.5L" ∧ final_brine_salinity i > 1753 / 10) →
      (add_vagmd i).high_brine_salinity = false
        ∧ (add_vagmd i).cooling_system_type = i.cooling_system_type
        ∧ (add_vagmd i).feed_flow_rate = i.feed_flow_rate
        ∧ (add_vagmd i).evap_inlet_temp = i.evap_inlet_temp
        ∧ (add_vagmd i).cond_inlet_temp = i.cond_inlet_temp) := by
  constructor
  · intro h
    simp [add_vagmd, h.1, h.2]
  · intro h
    simp only [add_vagmd, if_neg h]
    simp

/-- Witness for C4_add_vagmd_override: a high-brine-salinity input (AS7C1.5L,
feed salinity 100 g/L, recovery ratio 0.5 gives 200 g/L final brine salinity)
takes the override branch. -/
theorem C4_add_vagmd_override_witness :
    (add_vagmd (VagmdInputs.mk 600 70 25 25 100 (1 / 2) "AS7C1.5L" "open" 25)).cooling_system_type = "closed"
      ∧ (add_vagmd (VagmdInputs.mk 600 70 25 25 100 (1 / 2) "AS7C1.5L" "open" 25)).feed_flow_rate = 1100
      ∧ (add_vagmd (VagmdInputs.mk 600 70 25 25 100 (1 / 2) "AS7C1.5L" "open" 25)).evap_inlet_temp = 80
      ∧ (add_vagmd (VagmdInputs.mk 600 70 25 25 100 (1 / 2) "AS7C1.5L" "open" 25)).cond_inlet_temp = 25
      ∧ (add_vagmd (VagmdInputs.mk 600 70 25 25 100 (1 / 2) "AS7C1.5L" "open" 25)).high_brine_salinity = true :=
  (C4_add_vagmd_override (VagmdInputs.mk 600 70 25 25 100 (1 / 2) "AS7C1.5L" "open" 25)).1
    (by constructor
        · rfl
        · norm_num [final_brine_salinity])

/- ================================================================
   Section 4: failure paths of solve and initialize helpers
   (KBHDP_RPT_3.py solve, lines 333-360;
   flat_plate_pysam.py FlatPlateSurrogateData.initialize, lines 180-209)
   ================================================================ -/

/-- Outcome of KBHDP_RPT_3.solve. -/
inductive SolveOutcome where
  | returned_results
  | printed_and_returned_results
  | raised_runtime_error
deriving DecidableEq

/-- Embeds KBHDP_RPT_3.solve: if check_optimal_termination(results) the results
are returned; otherwise, when raise_on_failure is True the infeasible
diagnostics are printed and a builtin RuntimeError is raised, and when it is
False the message is printed and the results are returned. -/
def kbhdp_solve (optimal raise_on_failure : Bool) : SolveOutcome :=
  if optimal then SolveOutcome.returned_results
  else if raise_on_failure then SolveOutcome.raised_runtime_error
  else SolveOutcome.printed_and_returned_results

/-- Outcome of FlatPlateSurrogateData's init routine. -/
inductive InitOutcome where
  | ok
  | raised_init_error
  | raised_unbound_local_error
deriving DecidableEq

/-- Embeds FlatPlateSurrogateData's init routine ("initialize" in the source).
The local solver object opt is only assigned in the branch where the solver
argument is None, so a call with an explicit solver argument hits an unbound
local before any solve; on the solver=None path the unit is solved and the
framework's InitializationError is raised exactly when the solve is not
optimal. -/
def flat_plate_init (solver : Option Unit) (optimal : Bool) : InitOutcome :=
  match solver with
  | some _ => InitOutcome.raised_unbound_local_error
  | none =>
      if optimal then InitOutcome.ok else InitOutcome.raised_init_error

/-- One raise site in the repository's sources: the file, the exception class
raised, and the module the class is defined in (per the file's imports;
RuntimeError is a Python builtin). -/
structure RaisedExceptionSite where
  file : String
  exc_class : String
  origin_module : String
deriving DecidableEq

/-- All raise statements appearing in the repository's source files. -/
def raisedExceptionSites : List RaisedExceptionSite :=
  [ RaisedExceptionSite.mk "KBHDP_RPT_3.py" "RuntimeError" "builtins",
    RaisedExceptionSite.mk "flat_plate_pysam.py" "InitializationError"
      "idaes.core.util.exceptions",
    RaisedExceptionSite.mk "test_FO_draw_solution_properties.py"
      "PropertyAttributeError"
      "watertap.property_models.tests.property_test_harness" ]

/-- Top-level package of the repository itself. -/
def inRepoTopPackage : String := "watertap_contrib"

/-- An exception class is defined in-repo when its origin module lies under the
repository's package. -/
def excDefinedInRepo (e : RaisedExceptionSite) : Bool :=
  List.isPrefixOf inRepoTopPackage.toList e.origin_module.toList

/-- Claim C2: KBHDP_RPT_3.solve returns the results when termination is
optimal, raises builtin RuntimeError on failure when raise_on_failure is True,
and prints and returns the results otherwise; the flat-plate unit's init
routine raises the framework's InitializationError exactly when its solve
happens (solver argument None) and is not optimal; and every exception class
raised in the repository originates outside the repository's package. -/
theorem C2_error_paths :
    (∀ rf : Bool, kbhdp_solve true rf = SolveOutcome.returned_results)
      ∧ kbhdp_solve false true = SolveOutcome.raised_runtime_error
      ∧ kbhdp_solve false false = SolveOutcome.printed_and_returned_results
      ∧ (∀ (solver : Option Unit) (optimal : Bool),
          flat_plate_init solver optimal = InitOutcome.raised_init_error
            ↔ solver = none ∧ optimal = false)
      ∧ (∀ e ∈ raisedExceptionSites, excDefinedInRepo e = false) := by
  refine ⟨fun rf => rfl, rfl, rfl, ?_, ?_⟩
  · intro solver optimal
    cases solver <;> cases optimal <;> simp [flat_plate_init]
  · decide

/-- Witness for C2_error_paths at concrete inputs. -/
theorem C2_error_paths_witness :
    kbhdp_solve true false = SolveOutcome.returned_results
      ∧ (flat_plate_init none false = InitOutcome.raised_init_error
          ↔ (none : Option Unit) = none ∧ false = false)
      ∧ excDefinedInRepo (RaisedExceptionSite.mk "KBHDP_RPT_3.py" "RuntimeError"
          "builtins") = false :=
  ⟨C2_error_paths.1 false,
   C2_error_paths.2.2.2.1 none false,
   C2_error_paths.2.2.2.2
     (RaisedExceptionSite.mk "KBHDP_RPT_3.py" "RuntimeError" "builtins")
     (by simp [raisedExceptionSites])⟩

/- ================================================================
   Section 5: provider inventory of the scaling and initialization routines
   (flat_plate_pysam.py calculate_scaling_factors lines 156-178 and the init
   routine lines 180-209; MED_VAGMD_flowsheet.py fix_dof_and_initialize
   lines 398-452)
   ================================================================ -/

/-- One numeric operation performed by an in-repo scaling or initialization
routine: the callee and the package providing its implementation. -/
structure NumericCall where
  callee : String
  provider : String
deriving DecidableEq

/-- The external modeling-framework packages the repository builds on. -/
def externalFrameworkPackages : List String := ["idaes", "pyomo", "watertap"]

/-- Modelled from the spec: the init routines of the seto surrogate units
(LTMEDSurrogate, VAGMDSurrogateBase) invoked by fix_dof_and_initialize are code
of this repository that is not under src/; per the spec, "all numeric solving,
scaling, and initialization routines are provided by the external framework",
so the numeric work these routines perform is delegated to the framework's
initialization helpers and solver, here recorded by their providing package. -/
def surrogateInitProvider : String := "idaes"

/-- Calls made by FlatPlateSurrogateData.calculate_scaling_factors: for each of
hours_storage, heat_load, temperature_hot, heat and electricity it reads a
default scaling factor and sets it, both through the framework's iscale
module. -/
def flatPlateScalingCalls : List NumericCall :=
  [ NumericCall.mk "iscale.get_scaling_factor(hours_storage)" "idaes",
    NumericCall.mk "iscale.set_scaling_factor(hours_storage)" "idaes",
    NumericCall.mk "iscale.get_scaling_factor(heat_load)" "idaes",
    NumericCall.mk "iscale.set_scaling_factor(heat_load)" "idaes",
    NumericCall.mk "iscale.get_scaling_factor(temperature_hot)" "idaes",
    NumericCall.mk "iscale.set_scaling_factor(temperature_hot)" "idaes",
    NumericCall.mk "iscale.get_scaling_factor(heat)" "idaes",
    NumericCall.mk "iscale.set_scaling_factor(heat)" "idaes",
    NumericCall.mk "iscale.get_scaling_factor(electricity)" "idaes",
    NumericCall.mk "iscale.set_scaling_factor(electricity)" "idaes" ]

/-- Calls made by the flat-plate init routine: build the init logger, obtain the
framework solver, solve the unit, and check the termination status. -/
def flatPlateInitCalls : List NumericCall :=
  [ NumericCall.mk "idaeslog.getInitLogger" "idaes",
    NumericCall.mk "get_solver" "watertap",
    NumericCall.mk "opt.solve" "pyomo",
    NumericCall.mk "check_optimal_termination" "pyomo" ]

/-- Calls made by fix_dof_and_initialize of the MED-VAGMD flowsheet, in source
order. The init calls on fs.med and fs.vagmd carry surrogateInitProvider. -/
def fixDofAndInitCalls : List NumericCall :=
  [ NumericCall.mk "calculate_scaling_factors(m)" "idaes",
    NumericCall.mk "get_scaling_factor(volume_in_tank)" "idaes",
    NumericCall.mk "set_scaling_factor(volume_in_tank)" "idaes",
    NumericCall.mk "set_scaling_factor(volume_in_tank_previous)" "idaes",
    NumericCall.mk "get_scaling_factor(dt)" "idaes",
    NumericCall.mk "set_scaling_factor(dt)" "idaes",
    NumericCall.mk "fs.med init" surrogateInitProvider,
    NumericCall.mk "fs.S1 init" "idaes",
    NumericCall.mk "fs.vagmd.feed_props.calculate_state" "idaes",
    NumericCall.mk "fs.vagmd init" surrogateInitProvider,
    NumericCall.mk "calculate_variable_from_constraint(fs.dt)" "pyomo",
    NumericCall.mk "fs.M1.remained_liquid_state.calculate_state" "idaes",
    NumericCall.mk "fs.M1 init" "idaes",
    NumericCall.mk "fs.S2 init" "idaes",
    NumericCall.mk "volume_in_tank_previous.fix" "pyomo" ]

/-- Claim C3: every numeric solving, scaling-factor assignment, or
initialization operation performed by the repository's scaling and
initialization routines is provided by the external framework packages; the
in-repo routines only orchestrate framework calls and implement no scaling or
initialization logic of their own. -/
theorem C3_framework_provided :
    ∀ c ∈ flatPlateScalingCalls ++ flatPlateInitCalls ++ fixDofAndInitCalls,
      c.provider ∈ externalFrameworkPackages := by
  decide

/-- Witness for C3_framework_provided at a concrete call. -/
theorem C3_framework_provided_witness :
    (NumericCall.mk "opt.solve" "pyomo").provider ∈ externalFrameworkPackages :=
  C3_framework_provided (NumericCall.mk "opt.solve" "pyomo") (by decide)

/- ================================================================
   Section 6: local configuration files referenced by the analysis scripts
   (KBHDP_RPT_3.py lines 55-74; permian_ST2_MD.py lines 67-68)
   ================================================================ -/

/-- Local configuration files referenced by the analysis scripts:
kbhdp_case_study.yaml and permian_case_study.yaml (case_study_yaml),
el_paso_texas-KBHDP-weather.csv (weather_file), and swh-kbhdp.json
(param_file). -/
def analysisConfigFiles : List String :=
  [ "kbhdp_case_study.yaml",
    "el_paso_texas-KBHDP-weather.csv",
    "swh-kbhdp.json",
    "permian_case_study.yaml" ]

/-- Whether a file name ends with the given extension. -/
def hasExt (f ext : String) : Bool :=
  List.isSuffixOf ext.toList f.toList

/-- Whether a file is a CSV or YAML file, per its extension. -/
def isCsvOrYamlFile (f : String) : Bool :=
  hasExt f ".csv" || hasExt f ".yaml" || hasExt f ".yml"

/-- Whether a file is a CSV, YAML, or JSON file, per its extension. -/
def isCsvYamlOrJsonFile (f : String) : Bool :=
  isCsvOrYamlFile f || hasExt f ".json"

/-- Claim C6 is false as stated: the KBHDP script references the local
configuration file swh-kbhdp.json (param_file), which is neither CSV nor
YAML. -/
theorem C6_config_files_counterexample :
    ¬ (∀ f ∈ analysisConfigFiles, isCsvOrYamlFile f = true) := by
  intro h
  have := h "swh-kbhdp.json" (by decide)
  simp [isCsvOrYamlFile, hasExt, List.isSuffixOf] at this

/-- Claim C6, amended: every local configuration file referenced by the
analysis scripts is a CSV, YAML, or JSON file; the only non-CSV/YAML one is
the JSON solar parameter file swh-kbhdp.json. -/
theorem C6_config_files_amended :
    ∀ f ∈ analysisConfigFiles, isCsvYamlOrJsonFile f = true := by
  decide

/-- Witness for C6_config_files_amended at the JSON parameter file. -/
theorem C6_config_files_amended_witness :
    isCsvYamlOrJsonFile "swh-kbhdp.json" = true :=
  C6_config_files_amended "swh-kbhdp.json" (by decide)

/- ================================================================
   Section 7: script-level ordering of assembly, solving, and reporting
   (PV_RO_battery_mutiperiod_class.py lines 149-159, PV_RO_battery_demo.py,
   KBHDP_RPT_3.py lines 630-639 with build_sweep, permian_ST2_MD.py
   lines 724-809 with run_permian_st2_md)
   ================================================================ -/

/-- Events of a runnable script, in program order: flowsheet/model assembly,
an invocation of the external numeric solver, printing or recording of a
levelized-cost metric (LCOW/LCOT/LCOH), or any other step. -/
inductive ScriptEvent where
  | assemble
  | solverInvocation
  | reportLevelizedCost
  | otherStep
deriving DecidableEq

/-- Event trace of the __main__ block of PV_RO_battery_mutiperiod_class.py:
create the multiperiod model, solve it, print battery/pv values, and print
the LCOW value. -/
def pvRoMultiperiodMainEvents : List ScriptEvent :=
  [ ScriptEvent.assemble, ScriptEvent.solverInvocation, ScriptEvent.otherStep,
    ScriptEvent.reportLevelizedCost ]

/-- Event trace of PV_RO_battery_demo.py: create the multiperiod model, solve,
print battery/pv values, print the LCOW value, then draw diagrams. -/
def pvRoDemoEvents : List ScriptEvent :=
  [ ScriptEvent.assemble, ScriptEvent.solverInvocation, ScriptEvent.otherStep,
    ScriptEvent.reportLevelizedCost, ScriptEvent.otherStep ]

/-- Event trace of the __main__ block of KBHDP_RPT_3.py: build_sweep (assemble
the system, solve the MD block, two full solves, add costing, solve, set up the
optimization), display LCOT, display heat_load, solve, display LCOT, display
heat_load. -/
def kbhdpRpt3MainEvents : List ScriptEvent :=
  [ ScriptEvent.assemble, ScriptEvent.solverInvocation,
    ScriptEvent.solverInvocation, ScriptEvent.solverInvocation,
    ScriptEvent.assemble, ScriptEvent.solverInvocation, ScriptEvent.otherStep,
    ScriptEvent.reportLevelizedCost, ScriptEvent.otherStep,
    ScriptEvent.solverInvocation, ScriptEvent.reportLevelizedCost,
    ScriptEvent.otherStep ]

/-- Event trace of the __main__ block of permian_ST2_MD.py via
run_permian_st2_md: density model assembly and pretreatment, main flowsheet
assembly, conditioning and init, solve, MD report, crystallizer and costing
assembly, two further solves, the LCOW print, then the summary prints of
Treatment LCOW and System LCOT and the pretreatment report. -/
def permianSt2MdMainEvents : List ScriptEvent :=
  [ ScriptEvent.assemble, ScriptEvent.otherStep, ScriptEvent.assemble,
    ScriptEvent.otherStep, ScriptEvent.solverInvocation, ScriptEvent.otherStep,
    ScriptEvent.assemble, ScriptEvent.solverInvocation,
    ScriptEvent.solverInvocation, ScriptEvent.reportLevelizedCost,
    ScriptEvent.reportLevelizedCost, ScriptEvent.reportLevelizedCost,
    ScriptEvent.otherStep ]

/-- Checker: scanning the trace with a flag that records whether a solver
invocation has occurred, every levelized-cost report sees the flag set. -/
def reportsOnlyAfterSolve : Bool → List ScriptEvent → Bool
  | _, [] => true
  | _, ScriptEvent.solverInvocation :: rest => reportsOnlyAfterSolve true rest
  | seen, ScriptEvent.reportLevelizedCost :: rest =>
      seen && reportsOnlyAfterSolve seen rest
  | seen, _ :: rest => reportsOnlyAfterSolve seen rest

/-- Soundness of the checker: if it accepts a trace, every levelized-cost
report either was preceded by a solver invocation within the trace or the
incoming flag was already set. -/
theorem reportsOnlyAfterSolve_sound (evs : List ScriptEvent) :
    ∀ seen : Bool, reportsOnlyAfterSolve seen evs = true →
      ∀ i, evs.get? i = some ScriptEvent.reportLevelizedCost →
        seen = true
          ∨ ∃ j, j < i ∧ evs.get? j = some ScriptEvent.solverInvocation := by
  induction evs with
  | nil =>
      intro seen _ i hi
      simp at hi
  | cons e rest ih =>
      intro seen h i hi
      cases e with
      | solverInvocation =>
          cases i with
          | zero => simp at hi
          | succ i =>
              right
              have h' : reportsOnlyAfterSolve true rest = true := h
              rcases ih true h' i (by simpa using hi) with h1 | ⟨j, hj, hjv⟩
              · exact ⟨0, Nat.succ_pos i, rfl⟩
              · exact ⟨j + 1, Nat.succ_lt_succ hj, by simpa using hjv⟩
      | reportLevelizedCost =>
          have h' := h
          simp only [reportsOnlyAfterSolve, Bool.and_eq_true] at h'
          cases i with
          | zero => left; exact h'.1
          | succ i =>
              rcases ih seen h'.2 i (by simpa using hi) with h1 | ⟨j, hj, hjv⟩
              · left; exact h1
              · right; exact ⟨j + 1, Nat.succ_lt_succ hj, by simpa using hjv⟩
      | assemble =>
          cases i with
          | zero => simp at hi
          | succ i =>
              have h' : reportsOnlyAfterSolve seen rest = true := h
              rcases ih seen h' i (by simpa using hi) with h1 | ⟨j, hj, hjv⟩
              · left; exact h1
              · right; exact ⟨j + 1, Nat.succ_lt_succ hj, by simpa using hjv⟩
      | otherStep =>
          cases i with
          | zero => simp at hi
          | succ i =>
              have h' : reportsOnlyAfterSolve seen rest = true := h
              rcases ih seen h' i (by simpa using hi) with h1 | ⟨j, hj, hjv⟩
              · left; exact h1
              · right; exact ⟨j + 1, Nat.succ_lt_succ hj, by simpa using hjv⟩

/-- Every levelized-cost report in the trace is strictly preceded by a solver
invocation, and the trace opens with model assembly. -/
def assembleSolveReportOrder (evs : List ScriptEvent) : Prop :=
  (∀ i, evs.get? i = some ScriptEvent.reportLevelizedCost →
      ∃ j, j < i ∧ evs.get? j = some ScriptEvent.solverInvocation)
    ∧ evs.get? 0 = some ScriptEvent.assemble

/-- Claim C7: each of the four runnable scripts first assembles its flowsheet
model and reports levelized-cost metrics only after a solver invocation;
reporting of levelized costs never precedes a solve. -/
theorem C7_report_after_solve :
    assembleSolveReportOrder pvRoMultiperiodMainEvents
      ∧ assembleSolveReportOrder pvRoDemoEvents
      ∧ assembleSolveReportOrder kbhdpRpt3MainEvents
      ∧ assembleSolveReportOrder permianSt2MdMainEvents := by
  refine ⟨⟨?_, rfl⟩, ⟨?_, rfl⟩, ⟨?_, rfl⟩, ⟨?_, rfl⟩⟩ <;>
    · intro i hi
      rcases reportsOnlyAfterSolve_sound _ false (by decide) i hi with h1 | h2
      · exact absurd h1 (by simp)
      · exact h2

/-- Witness for C7_report_after_solve at the demo script's LCOW print
(index 3 of its trace). -/
theorem C7_report_after_solve_witness :
    ∃ j, j < 3 ∧ pvRoDemoEvents.get? j = some ScriptEvent.solverInvocation :=
  C7_report_after_solve.2.1.1 3 rfl

/- ================================================================
   Section 8: flat-plate annual heat and electricity constraints
   (flat_plate_pysam.py FlatPlateSurrogateData.build, lines 119-128)
   ================================================================ -/

/-- Hours in one year as produced by the unit conversion in the source,
pyunits.convert(1 * pyunits.year, to_units=pyunits.hour): the units registry
defines the year as the Julian year of 365.25 days, giving 8766 hours. -/
def hours_per_year : ℚ := 8766

/-- Variables of a FlatPlatePySAM unit relevant to its build constraints:
heat and electricity from the solar-energy base class, the heat_load design
variable (bounded below by 0), and the annual totals. -/
structure FlatPlateState where
  heat : ℚ
  electricity : ℚ
  heat_load : ℚ
  heat_annual : ℚ
  electricity_annual : ℚ

/-- Embeds heat_constraint: heat_annual == heat * convert(1 year, hours). -/
def heat_constraint (s : FlatPlateState) : Prop :=
  s.heat_annual = s.heat * hours_per_year

/-- Embeds electricity_constraint:
electricity_annual == electricity * convert(1 year, hours). -/
def electricity_constraint (s : FlatPlateState) : Prop :=
  s.electricity_annual = s.electricity * hours_per_year

/-- A point is feasible for the FlatPlatePySAM unit when it satisfies the two
build constraints and the lower bound of heat_load. -/
def flatPlateFeasible (s : FlatPlateState) : Prop :=
  heat_constraint s ∧ electricity_constraint s ∧ 0 ≤ s.heat_load

/-- Claim C8: at every feasible point of a FlatPlatePySAM model, heat_annual
equals heat times the hours-per-year factor and electricity_annual equals
electricity times the same factor. -/
theorem C8_annual_constraints (s : FlatPlateState) (h : flatPlateFeasible s) :
    s.heat_annual = s.heat * hours_per_year
      ∧ s.electricity_annual = s.electricity * hours_per_year :=
  ⟨h.1, h.2.1⟩

/-- Witness for C8_annual_constraints at a concrete feasible point. -/
theorem C8_annual_constraints_witness :
    (FlatPlateState.mk 2 1 1 17532 8766).heat_annual
        = (FlatPlateState.mk 2 1 1 17532 8766).heat * hours_per_year
      ∧ (FlatPlateState.mk 2 1 1 17532 8766).electricity_annual
        = (FlatPlateState.mk 2 1 1 17532 8766).electricity * hours_per_year :=
  C8_annual_constraints (FlatPlateState.mk 2 1 1 17532 8766)
    (by refine ⟨?_, ?_, ?_⟩ <;> norm_num [heat_constraint, electricity_constraint,
      hours_per_year])

/- ================================================================
   Section 9: inventory of the numeric assertions in the two test files
   (test_FO_draw_solution_properties.py, test_med_tvc_surrogate.py)
   ================================================================ -/

/-- One numeric assertion of a test file: whether it compares via
pytest.approx, its relative tolerance when approximate, whether the expected
value is a hard-coded literal (and that literal), and whether the assertion
runs after a solve followed by an optimal-termination assert. -/
structure TestAssertion where
  file : String
  line : ℕ
  approx : Bool
  relTol : Option ℚ
  literalExpected : Bool
  expected : Option ℚ
  afterOptimalSolve : Bool
deriving DecidableEq

/-- Numeric assertions of test_FO_draw_solution_properties.py, in source order:
the structural count equalities of test_parameters precede its solve; the
pytest.approx property-value assertions follow the solve and the
assert_optimal_termination at lines 145-146. -/
def foTestAssertions : List TestAssertion :=
  [ TestAssertion.mk "test_FO_draw_solution_properties.py" 90 false none false none false,
    TestAssertion.mk "test_FO_draw_solution_properties.py" 117 false none true (some 12) false,
    TestAssertion.mk "test_FO_draw_solution_properties.py" 118 false none true (some 8) false,
    TestAssertion.mk "test_FO_draw_solution_properties.py" 119 false none true (some 2) false,
    TestAssertion.mk "test_FO_draw_solution_properties.py" 148 true (some (1 / 1000)) true (some (1067.9535 : ℚ)) true,
    TestAssertion.mk "test_FO_draw_solution_properties.py" 151 true (some (1 / 1000)) true (some (2785.2975 : ℚ)) true,
    TestAssertion.mk "test_FO_draw_solution_properties.py" 154 true (some (1 / 1000)) true (some 73161000) true,
    TestAssertion.mk "test_FO_draw_solution_properties.py" 157 true (some (1 / 1000)) true (some (93637 / 100000000)) true,
    TestAssertion.mk "test_FO_draw_solution_properties.py" 160 true (some (1 / 1000)) true (some (533.977 : ℚ)) true,
    TestAssertion.mk "test_FO_draw_solution_properties.py" 163 true (some (1 / 1000)) true (some (533.977 : ℚ)) true,
    TestAssertion.mk "test_FO_draw_solution_properties.py" 166 true (some (1 / 1000)) true (some (1 / 2)) true,
    TestAssertion.mk "test_FO_draw_solution_properties.py" 169 true (some (1 / 1000)) true (some (1 / 2)) true ]

/-- Numeric assertions of test_med_tvc_surrogate.py, in source order: the
config/build/dof/scaling count equalities run before the solve of test_solve;
the approx assertions of test_mass_balance (whose expected values are computed
from local flow values) and of test_solution follow test_solve's
assert_optimal_termination; test_costing asserts dof, solves, asserts optimal
termination, then asserts its approx literals. -/
def medTvcTestAssertions : List TestAssertion :=
  [ TestAssertion.mk "test_med_tvc_surrogate.py" 163 false none true (some 5) false,
    TestAssertion.mk "test_med_tvc_surrogate.py" 188 false none true (some 3) false,
    TestAssertion.mk "test_med_tvc_surrogate.py" 191 false none true (some 201) false,
    TestAssertion.mk "test_med_tvc_surrogate.py" 192 false none true (some 58) false,
    TestAssertion.mk "test_med_tvc_surrogate.py" 193 false none true (some 76) false,
    TestAssertion.mk "test_med_tvc_surrogate.py" 198 false none true (some 0) false,
    TestAssertion.mk "test_med_tvc_surrogate.py" 207 false none true (some 0) false,
    TestAssertion.mk "test_med_tvc_surrogate.py" 211 false none true (some 0) false,
    TestAssertion.mk "test_med_tvc_surrogate.py" 249 true (some (1 / 1000)) false none true,
    TestAssertion.mk "test_med_tvc_surrogate.py" 252 true (some (1 / 1000)) false none true,
    TestAssertion.mk "test_med_tvc_surrogate.py" 262 true (some (1 / 100)) false none true,
    TestAssertion.mk "test_med_tvc_surrogate.py" 265 true (some (1 / 1000)) false none true,
    TestAssertion.mk "test_med_tvc_surrogate.py" 268 true (some (1 / 1000000)) false none true,
    TestAssertion.mk "test_med_tvc_surrogate.py" 277 true (some (1 / 1000)) true (some (12.9102 : ℚ)) true,
    TestAssertion.mk "test_med_tvc_surrogate.py" 278 true (some (1 / 1000)) true (some (5.1664 : ℚ)) true,
    TestAssertion.mk "test_med_tvc_surrogate.py" 279 true (some (1 / 1000)) true (some (53.1622 : ℚ)) true,
    TestAssertion.mk "test_med_tvc_surrogate.py" 282 true (some (1 / 1000)) true (some (4430.19 : ℚ)) true,
    TestAssertion.mk "test_med_tvc_surrogate.py" 285 true (some (1 / 1000)) true (some (2.6766 : ℚ)) true,
    TestAssertion.mk "test_med_tvc_surrogate.py" 288 true (some (1 / 1000)) true (some (1.2175 : ℚ)) true,
    TestAssertion.mk "test_med_tvc_surrogate.py" 291 true (some (1 / 1000)) true (some (131.593 : ℚ)) true,
    TestAssertion.mk "test_med_tvc_surrogate.py" 314 false none true (some 0) true,
    TestAssertion.mk "test_med_tvc_surrogate.py" 319 true (some (1 / 1000)) true (some (2254.658 : ℚ)) true,
    TestAssertion.mk "test_med_tvc_surrogate.py" 322 true (some (1 / 1000)) true (some (5126761.859 : ℚ)) true,
    TestAssertion.mk "test_med_tvc_surrogate.py" 325 true (some (1 / 1000)) true (some (2705589.357 : ℚ)) true,
    TestAssertion.mk "test_med_tvc_surrogate.py" 328 true (some (1 / 1000)) true (some (2421172.502 : ℚ)) true,
    TestAssertion.mk "test_med_tvc_surrogate.py" 331 true (some (1 / 1000)) true (some (239692.046 : ℚ)) true,
    TestAssertion.mk "test_med_tvc_surrogate.py" 335 true (some (1 / 1000)) true (some (1.6905 : ℚ)) true,
    TestAssertion.mk "test_med_tvc_surrogate.py" 337 true (some (1 / 1000)) true (some (785633.993 : ℚ)) true,
    TestAssertion.mk "test_med_tvc_surrogate.py" 340 true (some (1 / 1000)) true (some (5126761.859 : ℚ)) true ]

/-- All numeric assertions of the repository's two test files. -/
def repoTestAssertions : List TestAssertion :=
  foTestAssertions ++ medTvcTestAssertions

/-- The property claimed of every numeric assertion: an approximate comparison
of a solved value against a hard-coded literal with a relative tolerance,
placed after an optimal-termination assert. -/
def isSolvedApproxLiteralAssert (a : TestAssertion) : Bool :=
  a.approx && a.literalExpected && a.afterOptimalSolve && a.relTol.isSome

/-- Claim C9 is false as stated: the test files also contain exact structural
count assertions evaluated before any solve, e.g. number_variables(m) == 201 at
line 191 of the MED-TVC test, which is not an approximate comparison of a
solved value. -/
theorem C9_assertions_counterexample :
    ¬ (∀ a ∈ repoTestAssertions, isSolvedApproxLiteralAssert a = true) := by
  intro h
  have := h (TestAssertion.mk "test_med_tvc_surrogate.py" 191 false none true
    (some 201) false) (by decide)
  simp [isSolvedApproxLiteralAssert] at this

/-- Claim C9, amended: every pytest.approx assertion in the two test files
carries a relative tolerance, and whenever its expected value is a hard-coded
literal it follows an optimal-termination assert (including the cited
dens_mass_phase 1067.9535 at rel 1e-3 and gain_output_ratio 12.9102 at rel
1e-3); the remaining numeric assertions are exact structural equalities
(variable/constraint/DOF counts), and one approx assertion checks the TDS mass
balance against a value computed from other flows at rel 1e-6. -/
theorem C9_assertions_amended :
    (∀ a ∈ repoTestAssertions, a.approx = true →
        a.relTol.isSome = true
          ∧ (a.literalExpected = true → a.afterOptimalSolve = true))
      ∧ TestAssertion.mk "test_FO_draw_solution_properties.py" 148 true
          (some (1 / 1000)) true (some (1067.9535 : ℚ)) true ∈ repoTestAssertions
      ∧ TestAssertion.mk "test_med_tvc_surrogate.py" 277 true (some (1 / 1000))
          true (some (12.9102 : ℚ)) true ∈ repoTestAssertions
      ∧ TestAssertion.mk "test_med_tvc_surrogate.py" 268 true
          (some (1 / 1000000)) false none true ∈ repoTestAssertions := by
  refine ⟨?_, ?_, ?_, ?_⟩
  · decide
  · simp [repoTestAssertions, foTestAssertions, medTvcTestAssertions]
  · simp [repoTestAssertions, foTestAssertions, medTvcTestAssertions]
  · simp [repoTestAssertions, foTestAssertions, medTvcTestAssertions]

/-- Witness for C9_assertions_amended at the dens_mass_phase assertion. -/
theorem C9_assertions_amended_witness :
    (TestAssertion.mk "test_FO_draw_solution_properties.py" 148 true
        (some (1 / 1000)) true (some (1067.9535 : ℚ)) true).relTol.isSome = true
      ∧ ((TestAssertion.mk "test_FO_draw_solution_properties.py" 148 true
          (some (1 / 1000)) true (some (1067.9535 : ℚ)) true).literalExpected = true →
        (TestAssertion.mk "test_FO_draw_solution_properties.py" 148 true
          (some (1 / 1000)) true (some (1067.9535 : ℚ)) true).afterOptimalSolve = true) :=
  C9_assertions_amended.1
    (TestAssertion.mk "test_FO_draw_solution_properties.py" 148 true
      (some (1 / 1000)) true (some (1067.9535 : ℚ)) true)
    (by simp [repoTestAssertions, foTestAssertions, medTvcTestAssertions]) rfl

/- ================================================================
   Section 10: no concurrency primitives; deterministic construction
   (module import headers of all eight source files)
   ================================================================ -/

/-- Top-level modules imported by each source file of the repository,
transcribed from the import headers. -/
def repoFileImports : List (String × List String) :=
  [ ("PV_RO_battery_mutiperiod_class.py",
      ["numpy", "pandas", "logging", "collections", "pyomo", "idaes",
       "watertap_contrib"]),
    ("PV_RO_battery_demo.py",
      ["watertap_contrib", "pyomo", "idaes", "matplotlib", "scipy", "numpy"]),
    ("MED_VAGMD_flowsheet.py",
      ["os", "numpy", "pyomo", "idaes", "watertap", "watertap_contrib"]),
    ("flat_plate_pysam.py",
      ["pandas", "pyomo", "idaes", "watertap", "watertap_contrib"]),
    ("KBHDP_RPT_3.py",
      ["os", "math", "numpy", "pyomo", "idaes", "watertap", "watertap_contrib",
       "pandas", "pathlib"]),
    ("permian_ST2_MD.py",
      ["pathlib", "pyomo", "idaes", "watertap", "watertap_contrib"]),
    ("test_FO_draw_solution_properties.py",
      ["pytest", "pyomo", "idaes", "watertap", "watertap_contrib"]),
    ("test_med_tvc_surrogate.py",
      ["pytest", "pyomo", "re", "idaes", "watertap", "watertap_contrib"]) ]

/-- Python modules that create threads, processes, or asynchronous tasks. -/
def concurrencyModules : List String :=
  ["threading", "_thread", "multiprocessing", "asyncio", "concurrent",
   "subprocess", "queue", "trio", "socketserver"]

/-- Claim C10: no source file of the repository imports a module that creates
threads, processes, or asynchronous tasks, and the embedded model-construction
functions are deterministic: equal arguments yield equal VAGMD configurations
and equal linking-pair structures. -/
theorem C10_sequential_deterministic :
    (∀ p ∈ repoFileImports, ∀ mo ∈ p.2, mo ∉ concurrencyModules)
      ∧ (∀ i j : VagmdInputs, i = j → add_vagmd i = add_vagmd j)
      ∧ (∀ t1 t2 t1' t2' : ℕ, t1 = t1' → t2 = t2' →
          get_pv_ro_variable_pairs t1 t2 = get_pv_ro_variable_pairs t1' t2') := by
  refine ⟨by decide, ?_, ?_⟩
  · intro i j h
    rw [h]
  · intro t1 t2 t1' t2' h1 h2
    rw [h1, h2]

/-- Witness for C10_sequential_deterministic at concrete inputs. -/
theorem C10_sequential_deterministic_witness :
    "os" ∉ concurrencyModules
      ∧ add_vagmd (VagmdInputs.mk 600 80 25 25 35 (1 / 2) "AS26C7.2L" "open" 25)
        = add_vagmd (VagmdInputs.mk 600 80 25 25 35 (1 / 2) "AS26C7.2L" "open" 25) :=
  ⟨C10_sequential_deterministic.1 ("KBHDP_RPT_3.py",
      ["os", "math", "numpy", "pyomo", "idaes", "watertap", "watertap_contrib",
       "pandas", "pathlib"]) (by decide) "os" (by decide),
   C10_sequential_deterministic.2.1
     (VagmdInputs.mk 600 80 25 25 35 (1 / 2) "AS26C7.2L" "open" 25)
     (VagmdInputs.mk 600 80 25 25 35 (1 / 2) "AS26C7.2L" "open" 25) rfl⟩
